import Mathlib

/-!
Verification of `colour/colorimetry/luminance.py`.

The module defines three scalar luminance conversion functions
(`luminance_newhall1943`, `luminance_1976`, `luminance_ASTM_D1535_08`),
a name-keyed registry `LUMINANCE_FUNCTIONS`, and a dispatcher
`get_luminance`.  Scalars are embedded as rationals (the Python code works
on floats; all formulas are exact low-degree polynomial / piecewise
rational expressions, so `ℚ` is a faithful exact model and the numeric
spot checks are settled within the stated tolerances).  Optional Python
arguments that may be `None` are embedded as `Option`; a Python exception
propagating to the caller is embedded as the result `none`.
-/

namespace Luminance

/-- Modelled from the spec: `CIE_E` is imported from `colour.constants`,
which is not part of the sources at hand; the spec gives its standard
value 216/24389. -/
def CIE_E : ℚ := 216 / 24389

/-- Modelled from the spec: `CIE_K` is imported from `colour.constants`,
which is not part of the sources at hand; the spec gives its standard
value 24389/27. -/
def CIE_K : ℚ := 24389 / 27

/-- Python `luminance_newhall1943(V)`:
`Y = 1.2219 * V - 0.23111 * (V * V) + 0.23951 * (V ** 3) - 0.021009 * (V ** 4) + 0.0008404 * (V ** 5)`. -/
def luminance_newhall1943 (V : ℚ) : ℚ :=
  1.2219 * V - 0.23111 * (V * V) + 0.23951 * (V ^ 3) - 0.021009 * (V ^ 4)
    + 0.0008404 * (V ^ 5)

/-- Python `luminance_1976(L, Yn=100.)`:
`Y = ((((L + 16.) / 116.) ** 3.) * Yn if L > CIE_K * CIE_E else (L / CIE_K) * Yn)`. -/
def luminance_1976 (L : ℚ) (Yn : ℚ := 100) : ℚ :=
  if L > CIE_K * CIE_E then (((L + 16) / 116) ^ 3) * Yn else (L / CIE_K) * Yn

/-- Python `luminance_ASTM_D1535_08(V)`:
`Y = 1.1914 * V - 0.22533 * (V * V) + 0.23352 * (V ** 3) - 0.020484 * (V ** 4) + 0.00081939 * (V ** 5)`. -/
def luminance_ASTM_D1535_08 (V : ℚ) : ℚ :=
  1.1914 * V - 0.22533 * (V * V) + 0.23352 * (V ^ 3) - 0.020484 * (V ^ 4)
    + 0.00081939 * (V ^ 5)

/-- The function objects stored in the `LUMINANCE_FUNCTIONS` dict.  A closed
enumeration stands for the three Python function references. -/
inductive LuminanceFn
  | newhall1943
  | cie1976
  | astmD1535_08
deriving DecidableEq

/-- Calling a registry function object with the single positional argument
`LV`, as `get_luminance`'s dispatch branch does
(`LUMINANCE_FUNCTIONS.get(method)(LV)`).  For `luminance_1976` the missing
`Yn` argument takes its Python default `100.`. -/
def LuminanceFn.call : LuminanceFn → ℚ → ℚ
  | .newhall1943, LV => luminance_newhall1943 LV
  | .cie1976, LV => luminance_1976 LV 100
  | .astmD1535_08, LV => luminance_ASTM_D1535_08 LV

/-- Python `LUMINANCE_FUNCTIONS`: the module-level dict, as an association list
in source order. -/
def LUMINANCE_FUNCTIONS : List (String × LuminanceFn) :=
  [("Luminance Newhall 1943", .newhall1943),
   ("Luminance 1976", .cie1976),
   ("Luminance ASTM D1535-08", .astmD1535_08)]

/-- Python `get_luminance(LV, Yn=100., method="Luminance 1976")`.
`Yn` and `method` are `Option`s because the Python code tests them against
`None`.  The body is
`if Yn is None or method is not None: return LUMINANCE_FUNCTIONS.get(method)(LV)`,
`else: return luminance_1976(LV, Yn)`;
`dict.get` on a missing key (or on `None`) yields `None`, whose call raises
`TypeError` — embedded as the result `none`. -/
def get_luminance (LV : ℚ) (Yn : Option ℚ := some 100)
    (method : Option String := some ("Luminance 1976")) : Option ℚ :=
  if Yn = none ∨ method ≠ none then
    match method with
    | none => none
    | some m =>
      match LUMINANCE_FUNCTIONS.lookup m with
      | none => none
      | some f => some (f.call LV)
  else
    match Yn with
    | some yn => some (luminance_1976 LV yn)
    | none => none

/-- Registry dispatch with `LV` only: what
`LUMINANCE_FUNCTIONS.get(method)(LV)` evaluates to.  It does not receive
`Yn` at all. -/
def registry_dispatch (method : Option String) (LV : ℚ) : Option ℚ :=
  match method with
  | none => none
  | some m => (LUMINANCE_FUNCTIONS.lookup m).map (fun f => f.call LV)

/-- C1: `get_luminance(LV, Yn, method)` dispatches through the registry
using `method`, calling the looked-up function with `LV` only (the result
does not depend on `Yn`), whenever `Yn is None` or `method is not None`;
only when `Yn is not None` and `method is None` does it call
`luminance_1976(LV, Yn)` directly. -/
theorem get_luminance_branch_structure (LV : ℚ) (Yn : Option ℚ)
    (method : Option String) :
    (Yn = none ∨ method ≠ none →
      get_luminance LV Yn method = registry_dispatch method LV) ∧
    (Yn ≠ none ∧ method = none →
      ∃ yn, Yn = some yn ∧
        get_luminance LV Yn method = some (luminance_1976 LV yn)) := by
  constructor
  · intro h
    unfold get_luminance registry_dispatch
    rw [if_pos h]
    cases method with
    | none => rfl
    | some m => cases hl : LUMINANCE_FUNCTIONS.lookup m <;> simp [hl]
  · rintro ⟨hYn, hm⟩
    cases Yn with
    | none => exact absurd rfl hYn
    | some yn =>
      refine ⟨yn, rfl, ?_⟩
      subst hm
      unfold get_luminance
      rw [if_neg (by simp)]

/-- C1 witness: at `LV = 10`, `Yn = some 5`, `method = none`, the direct
branch is taken and returns `luminance_1976 10 5`. -/
theorem get_luminance_branch_structure_witness :
    get_luminance 10 (some 5) none = some (luminance_1976 10 5) := by
  obtain ⟨yn, hyn, h⟩ :=
    (get_luminance_branch_structure 10 (some 5) none).2 ⟨by simp, rfl⟩
  injection hyn with h5
  subst h5
  exact h

/-- C2 counterexample: `get_luminance(3.74629715382)` with all defaults
does dispatch via the registry branch into `luminance_1976` with its
default `Yn = 100`, but the value returned is about `0.41474`, more than
`37` away from the claimed `37.9856290977`. -/
theorem get_luminance_default_example_refuted :
    get_luminance 3.74629715382 = some (luminance_1976 3.74629715382 100) ∧
    |luminance_1976 3.74629715382 100 - 37.9856290977| > 37 := by
  constructor
  · rfl
  · rw [luminance_1976, if_neg (by norm_num [CIE_K, CIE_E])]
    rw [abs_sub_comm, abs_of_pos (by norm_num [CIE_K])]
    norm_num [CIE_K]

/-- C2 amended: `get_luminance(3.74629715382)` with all defaults
dispatches via the registry-lookup branch, calls
`luminance_1976(3.74629715382)` with no explicit `Yn`, and returns
approximately `0.4147362465` (within `1e-7`). -/
theorem get_luminance_default_example :
    get_luminance 3.74629715382 = some (luminance_1976 3.74629715382 100) ∧
    |luminance_1976 3.74629715382 100 - 0.4147362465| < 1e-7 := by
  constructor
  · rfl
  · rw [luminance_1976, if_neg (by norm_num [CIE_K, CIE_E]), abs_lt]
    constructor <;> norm_num [CIE_K]

/-- C3: `luminance_1976(L, Yn)` returns `((L + 16) / 116)^3 * Yn` when
`L > CIE_K * CIE_E` and `(L / CIE_K) * Yn` otherwise; with the default
`Yn = 100`, `luminance_1976 37.9856290977` is approximately `10.08`. -/
theorem luminance_1976_piecewise (L Yn : ℚ) :
    luminance_1976 L Yn =
      (if L > CIE_K * CIE_E then ((L + 16) / 116) ^ 3 * Yn
       else (L / CIE_K) * Yn) ∧
    |luminance_1976 37.9856290977 - 10.08| < 1e-7 := by
  constructor
  · rfl
  · rw [luminance_1976, if_pos (by norm_num [CIE_K, CIE_E]), abs_lt]
    constructor <;> norm_num

/-- C4: continuity at the knee.  With `CIE_E = 216/24389` and
`CIE_K = 24389/27` the knee is `L = CIE_K * CIE_E = 8`, where the cubic
branch `((L + 16)/116)^3 * Yn` and the linear branch `(L / CIE_K) * Yn`
agree for every `Yn`, and `luminance_1976` takes this common value. -/
theorem luminance_1976_continuous_at_knee (Yn : ℚ) :
    CIE_K * CIE_E = 8 ∧
    ((CIE_K * CIE_E + 16) / 116) ^ 3 * Yn = (CIE_K * CIE_E / CIE_K) * Yn ∧
    luminance_1976 (CIE_K * CIE_E) Yn = (CIE_K * CIE_E / CIE_K) * Yn := by
  have h8 : CIE_K * CIE_E = 8 := by norm_num [CIE_K, CIE_E]
  have hbr : ((CIE_K * CIE_E + 16) / 116 : ℚ) ^ 3 = CIE_K * CIE_E / CIE_K := by
    rw [h8]
    norm_num [CIE_K]
  refine ⟨h8, by rw [hbr], ?_⟩
  rw [luminance_1976, if_neg (lt_irrefl _)]

/-- C5: linearity in the reference white:
`luminance_1976 L Yn = luminance_1976 L 1 * Yn` for all `L`, `Yn`. -/
theorem luminance_1976_linear_in_Yn (L Yn : ℚ) :
    luminance_1976 L Yn = luminance_1976 L 1 * Yn := by
  unfold luminance_1976
  split <;> ring

/-- C6: `luminance_newhall1943 V` equals the exact quintic polynomial, and
at `V = 3.74629715382` it is approximately `10.4089874577` (within
`1e-7`). -/
theorem luminance_newhall1943_spec (V : ℚ) :
    luminance_newhall1943 V =
      1.2219 * V - 0.23111 * V ^ 2 + 0.23951 * V ^ 3 - 0.021009 * V ^ 4
        + 0.0008404 * V ^ 5 ∧
    |luminance_newhall1943 3.74629715382 - 10.4089874577| < 1e-7 := by
  constructor
  · unfold luminance_newhall1943
    ring
  · rw [abs_lt]
    constructor <;> norm_num [luminance_newhall1943]

/-- C7: `luminance_ASTM_D1535_08 V` equals the exact quintic polynomial,
and at `V = 3.74629715382` it is approximately `10.1488096782` (within
`1e-7`). -/
theorem luminance_ASTM_D1535_08_spec (V : ℚ) :
    luminance_ASTM_D1535_08 V =
      1.1914 * V - 0.22533 * V ^ 2 + 0.23352 * V ^ 3 - 0.020484 * V ^ 4
        + 0.00081939 * V ^ 5 ∧
    |luminance_ASTM_D1535_08 3.74629715382 - 10.1488096782| < 1e-7 := by
  constructor
  · unfold luminance_ASTM_D1535_08
    ring
  · rw [abs_lt]
    constructor <;> norm_num [luminance_ASTM_D1535_08]

/-- C8: calling `get_luminance` with a method string that is none of the
three registry keys fails (the failed lookup propagates as an error, here
`none`): it never falls back to a default and never returns a value. -/
theorem get_luminance_unknown_method (LV : ℚ) (Yn : Option ℚ) (m : String)
    (h1 : m ≠ "Luminance Newhall 1943") (h2 : m ≠ "Luminance 1976")
    (h3 : m ≠ "Luminance ASTM D1535-08") :
    get_luminance LV Yn (some m) = none := by
  have e1 : (m == "Luminance Newhall 1943") = false := by simp [h1]
  have e2 : (m == "Luminance 1976") = false := by simp [h2]
  have e3 : (m == "Luminance ASTM D1535-08") = false := by simp [h3]
  unfold get_luminance
  rw [if_pos (Or.inr (by simp))]
  simp [LUMINANCE_FUNCTIONS, List.lookup, e1, e2, e3]

/-- C8 witness: `get_luminance(10.0, method="unknown")` fails. -/
theorem get_luminance_unknown_method_witness :
    get_luminance 10 (some 100) (some ("unknown")) = none :=
  get_luminance_unknown_method 10 (some 100) "unknown"
    (by decide) (by decide) (by decide)

/-- C9: the registry contains exactly the three keys
`"Luminance Newhall 1943"`, `"Luminance 1976"` and
`"Luminance ASTM D1535-08"`, in that order and nothing else, mapping
respectively to the function objects for `luminance_newhall1943`,
`luminance_1976` (invoked at its default `Yn = 100` when called with one
argument) and `luminance_ASTM_D1535_08`. -/
theorem LUMINANCE_FUNCTIONS_registry :
    LUMINANCE_FUNCTIONS.map Prod.fst =
      ["Luminance Newhall 1943", "Luminance 1976",
       "Luminance ASTM D1535-08"] ∧
    LUMINANCE_FUNCTIONS.lookup ("Luminance Newhall 1943") =
      some .newhall1943 ∧
    LUMINANCE_FUNCTIONS.lookup ("Luminance 1976") = some .cie1976 ∧
    LUMINANCE_FUNCTIONS.lookup ("Luminance ASTM D1535-08") =
      some .astmD1535_08 ∧
    (∀ V, LuminanceFn.newhall1943.call V = luminance_newhall1943 V) ∧
    (∀ L, LuminanceFn.cie1976.call L = luminance_1976 L 100) ∧
    (∀ V, LuminanceFn.astmD1535_08.call V = luminance_ASTM_D1535_08 V) :=
  ⟨rfl, rfl, rfl, rfl, fun _ => rfl, fun _ => rfl, fun _ => rfl⟩

/-- C10: zero is preserved: `luminance_newhall1943 0 = 0`,
`luminance_ASTM_D1535_08 0 = 0`, and `luminance_1976 0 Yn = 0` for every
`Yn` (the linear branch applies at `L = 0` and vanishes). -/
theorem luminance_preserves_zero (Yn : ℚ) :
    luminance_newhall1943 0 = 0 ∧ luminance_ASTM_D1535_08 0 = 0 ∧
    luminance_1976 0 Yn = 0 := by
  refine ⟨by norm_num [luminance_newhall1943],
    by norm_num [luminance_ASTM_D1535_08], ?_⟩
  rw [luminance_1976, if_neg (by norm_num [CIE_K, CIE_E])]
  norm_num

end Luminance
